import Mathlib

/-!
Verification of the settings module of a Meilisearch client SDK
(`src/settings.rs`): the tri-state `Setting<T>` value type, its
serde-based wire codec, the settings sub-aggregates
(`PaginationSetting`, `FacetingSettings`, `MinWordSizeForTypos`,
`TypoToleranceSettings`), and the top-level `Settings` aggregate with
its builder methods.

The wire format is modelled by a small JSON value type. Serde-derived
(de)serialization of the Rust structs is embedded shallowly, field by
field, following serde's documented semantics:

* a field with `#[serde(skip_serializing_if = "p")]` is omitted from
  the emitted object when `p` holds of its value;
* on deserialization, a field key that is absent from the document is
  resolved through serde's `missing_field` path: for a field whose
  `Deserialize` impl goes through `deserialize_option` (Rust `Option<T>`,
  and `Setting<T>`, whose impl deserializes an `Option<T>`) this yields
  the "none" case; for any other field type it is an error;
* unknown keys are ignored (no `deny_unknown_fields` in the source).

Rust `String` is `String`, `Vec<T>` is `List T`, `HashMap<String, Vec<String>>`
is an association list `List (String × List String)`, `u8`/`usize` are `Nat`
(with the `u8` range check kept in the decoder), and the
`impl AsRef<str> → String` conversions performed by the builder methods
are the identity on the model's strings.
-/

/-- Model of a JSON wire value (`serde_json::Value`); object fields keep
their order, matching serde's struct serialization which emits fields in
declaration order. Numbers are restricted to naturals, which covers every
numeric field of this module (`usize`, `u8`). -/
inductive Json where
  | null : Json
  | bool : Bool → Json
  | num : Nat → Json
  | str : String → Json
  | arr : List Json → Json
  | obj : List (String × Json) → Json

/-- `true` iff the JSON value is an object containing the given key
(`serde_json` object key membership). -/
def Json.hasKey : Json → String → Bool
  | Json.obj fields, key => fields.any (fun p => p.1 == key)
  | _, _ => false

/-- Look a key up in a JSON object (first occurrence), `none` when the key
is absent or the value is not an object. -/
def Json.getKey : Json → String → Option Json
  | Json.obj fields, key => fields.lookup key
  | _, _ => none

/-- `Setting<T>` from `src/settings.rs`: `Set(T)`, `Reset`, `NotSet`. -/
inductive Setting (T : Type) where
  | set : T → Setting T
  | reset : Setting T
  | notSet : Setting T
deriving DecidableEq, Repr

/-- `Setting::is_not_set` from `src/settings.rs`. -/
def Setting.is_not_set {T : Type} : Setting T → Bool
  | .notSet => true
  | _ => false

/-- `Setting::set` from `src/settings.rs` (extract the `Set` payload). -/
def Setting.toSet {T : Type} : Setting T → Option T
  | .set v => some v
  | _ => none

/-- `Setting::or_reset` from `src/settings.rs`. -/
def Setting.or_reset {T : Type} (s : Setting T) (val : T) : Setting T :=
  match s with
  | .reset => .set val
  | otherwise => otherwise

/-- Serde serialization of `Option<T>` to JSON: `Some(v)` is the encoding
of `v`, `None` is `null`. -/
def serializeOption {T : Type} (enc : T → Json) : Option T → Json
  | some v => enc v
  | none => Json.null

/-- Serde deserialization of `Option<T>` from JSON: `null` is `None`, any
other value must decode as a `T` and becomes `Some`. -/
def deserializeOption {T : Type} (dec : Json → Option T) : Json → Option (Option T)
  | Json.null => some none
  | v => (dec v).map some

/-- `impl Serialize for Setting<T>` from `src/settings.rs`: `Set(value)`
serializes as `Some(value)`, while `NotSet` and `Reset` both serialize as
`None` (an explicit `null` on a JSON wire). -/
def serializeSetting {T : Type} (enc : T → Json) (s : Setting T) : Json :=
  serializeOption enc
    (match s with
     | .set value => some value
     | .notSet => none
     | .reset => none)

/-- `impl Deserialize for Setting<T>` from `src/settings.rs`: deserialize
an `Option<T>` and map `Some(x)` to `Set(x)`, `None` to `Reset`. -/
def deserializeSetting {T : Type} (dec : Json → Option T) (j : Json) : Option (Setting T) :=
  (deserializeOption dec j).map fun x =>
    match x with
    | some v => Setting.set v
    | none => Setting.reset

/-- Serde deserialization of `bool`. -/
def decodeBool : Json → Option Bool
  | Json.bool b => some b
  | _ => none

/-- Serde serialization of `bool`. -/
def encodeBool (b : Bool) : Json := Json.bool b

/-- Serde deserialization of `u8`: a JSON number within the `u8` range. -/
def decodeU8 : Json → Option Nat
  | Json.num n => if n < 256 then some n else none
  | _ => none

/-- Serde deserialization of `String`. -/
def decodeString : Json → Option String
  | Json.str s => some s
  | _ => none

/-- Serde deserialization of `Vec<String>`. -/
def decodeStringList : Json → Option (List String)
  | Json.arr xs => xs.mapM decodeString
  | _ => none

/-- Serde serialization of `Vec<String>`. -/
def encodeStringList (xs : List String) : Json :=
  Json.arr (xs.map Json.str)

/-- `PaginationSetting` from `src/settings.rs`: `{ max_total_hits: usize }`. -/
structure PaginationSetting where
  max_total_hits : Nat
deriving DecidableEq, Repr

/-- Serde serialization of `PaginationSetting` (camelCase rename). -/
def serializePagination (p : PaginationSetting) : Json :=
  Json.obj [("maxTotalHits", Json.num p.max_total_hits)]

/-- `MinWordSizeForTypos` from `src/settings.rs`:
`{ one_typo: Option<u8>, two_typos: Option<u8> }`. -/
structure MinWordSizeForTypos where
  one_typo : Option Nat
  two_typos : Option Nat
deriving DecidableEq, Repr

/-- `impl Default for MinWordSizeForTypos` from `src/settings.rs`:
`one_typo = Some(5)`, `two_typos = Some(9)`. -/
def MinWordSizeForTypos.default : MinWordSizeForTypos :=
  { one_typo := some 5, two_typos := some 9 }

/-- Serde serialization of `MinWordSizeForTypos`: both fields carry
`#[serde(skip_serializing_if = "Option::is_none")]`, keys in camelCase. -/
def serializeMinWordSize (m : MinWordSizeForTypos) : Json :=
  Json.obj
    ((match m.one_typo with
      | some n => [("oneTypo", Json.num n)]
      | none => []) ++
     (match m.two_typos with
      | some n => [("twoTypos", Json.num n)]
      | none => []))

/-- Serde resolution of a struct field of type `Option<T>` with no
`#[serde(default)]`: a present key deserializes an `Option<T>`; an absent
key goes through `missing_field`, whose deserializer answers
`deserialize_option` with the none case, so the field becomes `None`. -/
def deserializeOptionField {T : Type} (dec : Json → Option T)
    (fields : List (String × Json)) (key : String) : Option (Option T) :=
  match fields.lookup key with
  | some v => deserializeOption dec v
  | none => some none

/-- Serde-derived deserialization of `MinWordSizeForTypos`. -/
def deserializeMinWordSize : Json → Option MinWordSizeForTypos
  | Json.obj fields => do
      let one ← deserializeOptionField decodeU8 fields "oneTypo"
      let two ← deserializeOptionField decodeU8 fields "twoTypos"
      pure { one_typo := one, two_typos := two }
  | _ => none

/-- `TypoToleranceSettings` from `src/settings.rs`. Only `enabled` carries
`#[serde(skip_serializing_if = "Setting::is_not_set")]`; the
`skip_serializing_if` attributes on the two `disable_on_*` fields are
commented out in the source, and `min_word_size_for_typos` has no serde
attribute at all. -/
structure TypoToleranceSettings where
  enabled : Setting Bool
  disable_on_attributes : List String
  disable_on_words : List String
  min_word_size_for_typos : MinWordSizeForTypos
deriving DecidableEq, Repr

/-- `TypoToleranceSettings::new` (also its `Default`) from `src/settings.rs`. -/
def TypoToleranceSettings.new : TypoToleranceSettings :=
  { enabled := Setting.set true
    disable_on_attributes := []
    disable_on_words := []
    min_word_size_for_typos := MinWordSizeForTypos.default }

/-- `TypoToleranceSettings::with_enabled` from `src/settings.rs`. -/
def TypoToleranceSettings.with_enabled (t : TypoToleranceSettings) (enabled : Bool) :
    TypoToleranceSettings :=
  { t with enabled := Setting.set enabled }

/-- `TypoToleranceSettings::with_disable_on_attributes` from `src/settings.rs`
(the `impl AsRef<str> → String` conversion is the identity here). -/
def TypoToleranceSettings.with_disable_on_attributes (t : TypoToleranceSettings)
    (disable_on_attributes : List String) : TypoToleranceSettings :=
  { t with disable_on_attributes := disable_on_attributes }

/-- `TypoToleranceSettings::with_disable_on_words` from `src/settings.rs`. -/
def TypoToleranceSettings.with_disable_on_words (t : TypoToleranceSettings)
    (disable_on_words : List String) : TypoToleranceSettings :=
  { t with disable_on_words := disable_on_words }

/-- `TypoToleranceSettings::with_min_word_size_for_typos` from `src/settings.rs`. -/
def TypoToleranceSettings.with_min_word_size_for_typos (t : TypoToleranceSettings)
    (m : MinWordSizeForTypos) : TypoToleranceSettings :=
  { t with min_word_size_for_typos := m }

/-- Serde-derived serialization of `TypoToleranceSettings`: fields in
declaration order, camelCase keys; `enabled` is skipped exactly when
`Setting::is_not_set` holds, the other three fields are always emitted. -/
def serializeTypoTolerance (t : TypoToleranceSettings) : Json :=
  Json.obj
    ((if t.enabled.is_not_set then []
      else [("enabled", serializeSetting encodeBool t.enabled)]) ++
     [("disableOnAttributes", encodeStringList t.disable_on_attributes),
      ("disableOnWords", encodeStringList t.disable_on_words),
      ("minWordSizeForTypos", serializeMinWordSize t.min_word_size_for_typos)])

/-- Serde-derived deserialization of `TypoToleranceSettings`. No field has
`#[serde(default)]`: an absent `enabled` key resolves through
`missing_field`, which `Setting`'s `Deserialize` (an `Option` deserialize)
turns into `None` and hence `Reset`; an absent `disableOnAttributes`,
`disableOnWords` or `minWordSizeForTypos` key is a missing-field error. -/
def deserializeTypoTolerance : Json → Option TypoToleranceSettings
  | Json.obj fields => do
      let enabled ←
        match fields.lookup "enabled" with
        | some v => deserializeSetting decodeBool v
        | none => some Setting.reset
      let da ←
        match fields.lookup "disableOnAttributes" with
        | some v => decodeStringList v
        | none => none
      let dw ←
        match fields.lookup "disableOnWords" with
        | some v => decodeStringList v
        | none => none
      let m ←
        match fields.lookup "minWordSizeForTypos" with
        | some v => deserializeMinWordSize v
        | none => none
      pure { enabled := enabled
             disable_on_attributes := da
             disable_on_words := dw
             min_word_size_for_typos := m }
  | _ => none

/-- `FacetingSettings` from `src/settings.rs`: `{ max_values_per_facet: usize }`. -/
structure FacetingSettings where
  max_values_per_facet : Nat
deriving DecidableEq, Repr

/-- Serde serialization of `FacetingSettings` (camelCase rename). -/
def serializeFaceting (f : FacetingSettings) : Json :=
  Json.obj [("maxValuesPerFacet", Json.num f.max_values_per_facet)]

/-- `Settings` from `src/settings.rs`: eleven optional fields, each with
`#[serde(skip_serializing_if = "Option::is_none")]`, camelCase keys.
`HashMap<String, Vec<String>>` is modelled as an association list. -/
structure Settings where
  synonyms : Option (List (String × List String))
  stop_words : Option (List String)
  ranking_rules : Option (List String)
  filterable_attributes : Option (List String)
  sortable_attributes : Option (List String)
  distinct_attribute : Option String
  searchable_attributes : Option (List String)
  displayed_attributes : Option (List String)
  pagination : Option PaginationSetting
  faceting : Option FacetingSettings
  typo_tolerance : Option TypoToleranceSettings
deriving Repr

/-- `Settings::new` from `src/settings.rs`: every field `None`. -/
def Settings.new : Settings :=
  { synonyms := none
    stop_words := none
    ranking_rules := none
    filterable_attributes := none
    sortable_attributes := none
    distinct_attribute := none
    searchable_attributes := none
    displayed_attributes := none
    pagination := none
    faceting := none
    typo_tolerance := none }

/-- `Settings::with_synonyms` from `src/settings.rs` (the key/value
`AsRef<str> → String` conversions are the identity here). -/
def Settings.with_synonyms (s : Settings) (synonyms : List (String × List String)) : Settings :=
  { s with synonyms := some synonyms }

/-- `Settings::with_stop_words` from `src/settings.rs`. -/
def Settings.with_stop_words (s : Settings) (stop_words : List String) : Settings :=
  { s with stop_words := some stop_words }

/-- `Settings::with_ranking_rules` from `src/settings.rs`. -/
def Settings.with_ranking_rules (s : Settings) (ranking_rules : List String) : Settings :=
  { s with ranking_rules := some ranking_rules }

/-- `Settings::with_filterable_attributes` from `src/settings.rs`. -/
def Settings.with_filterable_attributes (s : Settings) (filterable_attributes : List String) :
    Settings :=
  { s with filterable_attributes := some filterable_attributes }

/-- `Settings::with_sortable_attributes` from `src/settings.rs`. -/
def Settings.with_sortable_attributes (s : Settings) (sortable_attributes : List String) :
    Settings :=
  { s with sortable_attributes := some sortable_attributes }

/-- `Settings::with_distinct_attribute` from `src/settings.rs`. -/
def Settings.with_distinct_attribute (s : Settings) (distinct_attribute : String) : Settings :=
  { s with distinct_attribute := some distinct_attribute }

/-- `Settings::with_searchable_attributes` from `src/settings.rs`. -/
def Settings.with_searchable_attributes (s : Settings) (searchable_attributes : List String) :
    Settings :=
  { s with searchable_attributes := some searchable_attributes }

/-- `Settings::with_displayed_attributes` from `src/settings.rs`. -/
def Settings.with_displayed_attributes (s : Settings) (displayed_attributes : List String) :
    Settings :=
  { s with displayed_attributes := some displayed_attributes }

/-- `Settings::with_pagination` from `src/settings.rs`. -/
def Settings.with_pagination (s : Settings) (pagination_settings : PaginationSetting) :
    Settings :=
  { s with pagination := some pagination_settings }

/-- `Settings::with_faceting` from `src/settings.rs` (the source takes
`&FacetingSettings` and clones it; values are copied here). -/
def Settings.with_faceting (s : Settings) (faceting : FacetingSettings) : Settings :=
  { s with faceting := some faceting }

/-- `Settings::with_typo_tolerance` from `src/settings.rs`. -/
def Settings.with_typo_tolerance (s : Settings) (typo_tolerance_settings : TypoToleranceSettings) :
    Settings :=
  { s with typo_tolerance := some typo_tolerance_settings }

/-- Serde serialization of `HashMap<String, Vec<String>>` (one object key
per map entry, in the model's association-list order). -/
def serializeSynonyms (m : List (String × List String)) : Json :=
  Json.obj (m.map fun p => (p.1, encodeStringList p.2))

/-- One emitted field of an aggregate whose Rust type is `Option<T>` with
`#[serde(skip_serializing_if = "Option::is_none")]`: no key when `None`. -/
def optField {T : Type} (key : String) (enc : T → Json) : Option T → List (String × Json)
  | some v => [(key, enc v)]
  | none => []

/-- Serde-derived serialization of `Settings`: the eleven fields in
declaration order, each omitted when `None`, camelCase keys. -/
def serializeSettings (s : Settings) : Json :=
  Json.obj
    (optField "synonyms" serializeSynonyms s.synonyms ++
     optField "stopWords" encodeStringList s.stop_words ++
     optField "rankingRules" encodeStringList s.ranking_rules ++
     optField "filterableAttributes" encodeStringList s.filterable_attributes ++
     optField "sortableAttributes" encodeStringList s.sortable_attributes ++
     optField "distinctAttribute" Json.str s.distinct_attribute ++
     optField "searchableAttributes" encodeStringList s.searchable_attributes ++
     optField "displayedAttributes" encodeStringList s.displayed_attributes ++
     optField "pagination" serializePagination s.pagination ++
     optField "faceting" serializeFaceting s.faceting ++
     optField "typoTolerance" serializeTypoTolerance s.typo_tolerance)

/-- One `with_X` builder call on `Settings`, with its argument: used to
state commutation and last-write-wins over the eleven builder methods. -/
inductive SettingsOp where
  | synonyms : List (String × List String) → SettingsOp
  | stopWords : List String → SettingsOp
  | rankingRules : List String → SettingsOp
  | filterableAttributes : List String → SettingsOp
  | sortableAttributes : List String → SettingsOp
  | distinctAttribute : String → SettingsOp
  | searchableAttributes : List String → SettingsOp
  | displayedAttributes : List String → SettingsOp
  | pagination : PaginationSetting → SettingsOp
  | faceting : FacetingSettings → SettingsOp
  | typoTolerance : TypoToleranceSettings → SettingsOp

/-- Apply a builder call to a `Settings` value, by the corresponding
`with_X` method of `src/settings.rs`. -/
def SettingsOp.apply : SettingsOp → Settings → Settings
  | .synonyms v, s => s.with_synonyms v
  | .stopWords v, s => s.with_stop_words v
  | .rankingRules v, s => s.with_ranking_rules v
  | .filterableAttributes v, s => s.with_filterable_attributes v
  | .sortableAttributes v, s => s.with_sortable_attributes v
  | .distinctAttribute v, s => s.with_distinct_attribute v
  | .searchableAttributes v, s => s.with_searchable_attributes v
  | .displayedAttributes v, s => s.with_displayed_attributes v
  | .pagination v, s => s.with_pagination v
  | .faceting v, s => s.with_faceting v
  | .typoTolerance v, s => s.with_typo_tolerance v

/-- The index of the `Settings` field a builder call writes. -/
def SettingsOp.field : SettingsOp → Nat
  | .synonyms _ => 0
  | .stopWords _ => 1
  | .rankingRules _ => 2
  | .filterableAttributes _ => 3
  | .sortableAttributes _ => 4
  | .distinctAttribute _ => 5
  | .searchableAttributes _ => 6
  | .displayedAttributes _ => 7
  | .pagination _ => 8
  | .faceting _ => 9
  | .typoTolerance _ => 10

/-- Claim C1: the spec requires that decoding a wire document in which a
`Setting<T>` field's key is absent yields `NotSet`. The code violates this:
`TypoToleranceSettings.enabled` has no `#[serde(default)]`, so a document
lacking the `enabled` key decodes it through the `Setting` deserializer's
none case to `Reset`, not `NotSet` — exactly the defect the spec's design
notes flag. This theorem evaluates the decoder at such a document. -/
theorem c1_enabled_absent_decodes_to_reset :
    deserializeTypoTolerance (Json.obj
      [("disableOnAttributes", Json.arr []),
       ("disableOnWords", Json.arr []),
       ("minWordSizeForTypos", Json.obj [("oneTypo", Json.num 5), ("twoTypos", Json.num 9)])]) =
      some { enabled := Setting.reset
             disable_on_attributes := []
             disable_on_words := []
             min_word_size_for_typos := { one_typo := some 5, two_typos := some 9 } } ∧
    (Setting.reset : Setting Bool) ≠ Setting.notSet := by
  refine ⟨by decide, by decide⟩

/-- Claim C2: on the gated field `TypoToleranceSettings.enabled`
(`skip_serializing_if = "Setting::is_not_set"`), encoding `NotSet` emits no
`enabled` key at all, and encoding `Reset` emits the `enabled` key with an
explicit null. -/
theorem c2_gated_field_notSet_omitted_reset_null (t : TypoToleranceSettings) :
    (t.enabled = Setting.notSet → (serializeTypoTolerance t).hasKey "enabled" = false) ∧
    (t.enabled = Setting.reset →
      (serializeTypoTolerance t).hasKey "enabled" = true ∧
      (serializeTypoTolerance t).getKey "enabled" = some Json.null) := by
  constructor <;> intro h <;>
    simp [serializeTypoTolerance, h, Setting.is_not_set, Json.hasKey, Json.getKey,
      serializeSetting, serializeOption, List.lookup]

/-- Witness for C2 at concrete inputs: `enabled = NotSet` omits the key,
`enabled = Reset` emits it as null. -/
theorem c2_witness :
    ((serializeTypoTolerance
        ⟨Setting.notSet, [], [], MinWordSizeForTypos.default⟩).hasKey "enabled" = false) ∧
    ((serializeTypoTolerance
        ⟨Setting.reset, [], [], MinWordSizeForTypos.default⟩).hasKey "enabled" = true ∧
     (serializeTypoTolerance
        ⟨Setting.reset, [], [], MinWordSizeForTypos.default⟩).getKey "enabled" =
       some Json.null) :=
  ⟨(c2_gated_field_notSet_omitted_reset_null
      ⟨Setting.notSet, [], [], MinWordSizeForTypos.default⟩).1 rfl,
   (c2_gated_field_notSet_omitted_reset_null
      ⟨Setting.reset, [], [], MinWordSizeForTypos.default⟩).2 rfl⟩

/-- Claim C3 fails as stated "for every type T and every encodable value x":
at `T = Option<bool>` the value `x = None` is encodable (it round-trips at
its own type), yet `Set(None)` serializes to null — the `Setting`
serializer emits `Some(None)`, whose serde encoding is null — and null
deserializes to `Reset`, not `Set(None)`. -/
theorem c3_counterexample :
    deserializeOption decodeBool (serializeOption encodeBool none) = some none ∧
    deserializeSetting (deserializeOption decodeBool)
      (serializeSetting (serializeOption encodeBool) (Setting.set none)) =
      some Setting.reset ∧
    some (Setting.reset : Setting (Option Bool)) ≠ some (Setting.set none) := by
  refine ⟨rfl, rfl, by decide⟩

/-- Claim C3, amended: for every type `T` with an encoder/decoder pair and
every value `x` that round-trips and whose encoding is not null, decoding
the encoding of `Set(x)` yields `Set(x)`. (The null-encoding exception is
forced by the counterexample: a `Set` payload encoded as null is read back
as `Reset`.) -/
theorem c3_set_round_trip {T : Type} (enc : T → Json) (dec : Json → Option T) (x : T)
    (hx : dec (enc x) = some x) (hnn : enc x ≠ Json.null) :
    deserializeSetting dec (serializeSetting enc (Setting.set x)) = some (Setting.set x) := by
  cases h : enc x <;>
    simp_all [deserializeSetting, deserializeOption, serializeSetting, serializeOption]

/-- Witness for C3's amended round trip at `T = bool`, `x = true`. -/
theorem c3_witness :
    decodeBool (encodeBool true) = some true ∧
    encodeBool true ≠ Json.null ∧
    deserializeSetting decodeBool (serializeSetting encodeBool (Setting.set true)) =
      some (Setting.set true) :=
  ⟨rfl, by simp [encodeBool],
   c3_set_round_trip encodeBool decodeBool true rfl (by simp [encodeBool])⟩

/-- Claim C4 (Scenario B): a `TypoToleranceSettings` with `enabled = Reset`
and the other fields at their defaults encodes to the document
`{"enabled": null, "disableOnAttributes": [], "disableOnWords": [],
"minWordSizeForTypos": {"oneTypo": 5, "twoTypos": 9}}`, and decoding that
document back yields `enabled = Reset`. -/
theorem c4_scenario_b_reset_round_trip :
    serializeTypoTolerance ⟨Setting.reset, [], [], MinWordSizeForTypos.default⟩ =
      Json.obj
        [("enabled", Json.null),
         ("disableOnAttributes", Json.arr []),
         ("disableOnWords", Json.arr []),
         ("minWordSizeForTypos", Json.obj [("oneTypo", Json.num 5), ("twoTypos", Json.num 9)])] ∧
    (deserializeTypoTolerance (Json.obj
        [("enabled", Json.null),
         ("disableOnAttributes", Json.arr []),
         ("disableOnWords", Json.arr []),
         ("minWordSizeForTypos",
          Json.obj [("oneTypo", Json.num 5), ("twoTypos", Json.num 9)])])).map
      TypoToleranceSettings.enabled = some Setting.reset := by
  refine ⟨rfl, by decide⟩

/-- Claim C5: the spec requires that decoding a typo-tolerance document
lacking the `minWordSizeForTypos` key succeeds with the default
`{one_typo: 5, two_typos: 9}`. The code violates this: the field has no
`#[serde(default)]`, so the absent key is a missing-field error and the
whole decode fails. This theorem evaluates the decoder at such a document. -/
theorem c5_missing_min_word_size_errors :
    deserializeTypoTolerance (Json.obj
      [("enabled", Json.bool true),
       ("disableOnAttributes", Json.arr []),
       ("disableOnWords", Json.arr [])]) = none ∧
    MinWordSizeForTypos.default = { one_typo := some 5, two_typos := some 9 } := by
  refine ⟨by decide, rfl⟩

/-- Claim C6: `Settings::new` leaves all eleven fields `None`, and every
field is gated by `skip_serializing_if = "Option::is_none"`, so the
encoded wire document is the empty object. -/
theorem c6_new_serializes_empty : serializeSettings Settings.new = Json.obj [] := rfl

/-- Claim C7: the bare `Setting<T>` serializer (what a field without the
omit-if-NotSet gate uses) maps both `Reset` and `NotSet` to an explicit
null, so the two states are indistinguishable on the wire. -/
theorem c7_ungated_reset_and_notSet_both_null (T : Type) (enc : T → Json) :
    serializeSetting enc Setting.reset = Json.null ∧
    serializeSetting enc Setting.notSet = Json.null :=
  ⟨rfl, rfl⟩

/-- Claim C8: every `with_X` builder method is pure — it returns a new
`Settings` whose `X` field is `Some` of the supplied value and whose ten
other fields are carried over from the receiver unchanged (the embedding
is by values, so the receiver itself is never mutated). -/
theorem c8_builders_set_one_field_preserve_rest (s : Settings)
    (syn : List (String × List String)) (sw rr fa sa sea da : List String)
    (d : String) (p : PaginationSetting) (f : FacetingSettings)
    (tt : TypoToleranceSettings) :
    ((s.with_synonyms syn).synonyms = some syn ∧
     (s.with_synonyms syn).stop_words = s.stop_words ∧
     (s.with_synonyms syn).ranking_rules = s.ranking_rules ∧
     (s.with_synonyms syn).filterable_attributes = s.filterable_attributes ∧
     (s.with_synonyms syn).sortable_attributes = s.sortable_attributes ∧
     (s.with_synonyms syn).distinct_attribute = s.distinct_attribute ∧
     (s.with_synonyms syn).searchable_attributes = s.searchable_attributes ∧
     (s.with_synonyms syn).displayed_attributes = s.displayed_attributes ∧
     (s.with_synonyms syn).pagination = s.pagination ∧
     (s.with_synonyms syn).faceting = s.faceting ∧
     (s.with_synonyms syn).typo_tolerance = s.typo_tolerance) ∧
    ((s.with_stop_words sw).stop_words = some sw ∧
     (s.with_stop_words sw).synonyms = s.synonyms ∧
     (s.with_stop_words sw).ranking_rules = s.ranking_rules ∧
     (s.with_stop_words sw).filterable_attributes = s.filterable_attributes ∧
     (s.with_stop_words sw).sortable_attributes = s.sortable_attributes ∧
     (s.with_stop_words sw).distinct_attribute = s.distinct_attribute ∧
     (s.with_stop_words sw).searchable_attributes = s.searchable_attributes ∧
     (s.with_stop_words sw).displayed_attributes = s.displayed_attributes ∧
     (s.with_stop_words sw).pagination = s.pagination ∧
     (s.with_stop_words sw).faceting = s.faceting ∧
     (s.with_stop_words sw).typo_tolerance = s.typo_tolerance) ∧
    ((s.with_ranking_rules rr).ranking_rules = some rr ∧
     (s.with_ranking_rules rr).synonyms = s.synonyms ∧
     (s.with_ranking_rules rr).stop_words = s.stop_words ∧
     (s.with_ranking_rules rr).filterable_attributes = s.filterable_attributes ∧
     (s.with_ranking_rules rr).sortable_attributes = s.sortable_attributes ∧
     (s.with_ranking_rules rr).distinct_attribute = s.distinct_attribute ∧
     (s.with_ranking_rules rr).searchable_attributes = s.searchable_attributes ∧
     (s.with_ranking_rules rr).displayed_attributes = s.displayed_attributes ∧
     (s.with_ranking_rules rr).pagination = s.pagination ∧
     (s.with_ranking_rules rr).faceting = s.faceting ∧
     (s.with_ranking_rules rr).typo_tolerance = s.typo_tolerance) ∧
    ((s.with_filterable_attributes fa).filterable_attributes = some fa ∧
     (s.with_filterable_attributes fa).synonyms = s.synonyms ∧
     (s.with_filterable_attributes fa).stop_words = s.stop_words ∧
     (s.with_filterable_attributes fa).ranking_rules = s.ranking_rules ∧
     (s.with_filterable_attributes fa).sortable_attributes = s.sortable_attributes ∧
     (s.with_filterable_attributes fa).distinct_attribute = s.distinct_attribute ∧
     (s.with_filterable_attributes fa).searchable_attributes = s.searchable_attributes ∧
     (s.with_filterable_attributes fa).displayed_attributes = s.displayed_attributes ∧
     (s.with_filterable_attributes fa).pagination = s.pagination ∧
     (s.with_filterable_attributes fa).faceting = s.faceting ∧
     (s.with_filterable_attributes fa).typo_tolerance = s.typo_tolerance) ∧
    ((s.with_sortable_attributes sa).sortable_attributes = some sa ∧
     (s.with_sortable_attributes sa).synonyms = s.synonyms ∧
     (s.with_sortable_attributes sa).stop_words = s.stop_words ∧
     (s.with_sortable_attributes sa).ranking_rules = s.ranking_rules ∧
     (s.with_sortable_attributes sa).filterable_attributes = s.filterable_attributes ∧
     (s.with_sortable_attributes sa).distinct_attribute = s.distinct_attribute ∧
     (s.with_sortable_attributes sa).searchable_attributes = s.searchable_attributes ∧
     (s.with_sortable_attributes sa).displayed_attributes = s.displayed_attributes ∧
     (s.with_sortable_attributes sa).pagination = s.pagination ∧
     (s.with_sortable_attributes sa).faceting = s.faceting ∧
     (s.with_sortable_attributes sa).typo_tolerance = s.typo_tolerance) ∧
    ((s.with_distinct_attribute d).distinct_attribute = some d ∧
     (s.with_distinct_attribute d).synonyms = s.synonyms ∧
     (s.with_distinct_attribute d).stop_words = s.stop_words ∧
     (s.with_distinct_attribute d).ranking_rules = s.ranking_rules ∧
     (s.with_distinct_attribute d).filterable_attributes = s.filterable_attributes ∧
     (s.with_distinct_attribute d).sortable_attributes = s.sortable_attributes ∧
     (s.with_distinct_attribute d).searchable_attributes = s.searchable_attributes ∧
     (s.with_distinct_attribute d).displayed_attributes = s.displayed_attributes ∧
     (s.with_distinct_attribute d).pagination = s.pagination ∧
     (s.with_distinct_attribute d).faceting = s.faceting ∧
     (s.with_distinct_attribute d).typo_tolerance = s.typo_tolerance) ∧
    ((s.with_searchable_attributes sea).searchable_attributes = some sea ∧
     (s.with_searchable_attributes sea).synonyms = s.synonyms ∧
     (s.with_searchable_attributes sea).stop_words = s.stop_words ∧
     (s.with_searchable_attributes sea).ranking_rules = s.ranking_rules ∧
     (s.with_searchable_attributes sea).filterable_attributes = s.filterable_attributes ∧
     (s.with_searchable_attributes sea).sortable_attributes = s.sortable_attributes ∧
     (s.with_searchable_attributes sea).distinct_attribute = s.distinct_attribute ∧
     (s.with_searchable_attributes sea).displayed_attributes = s.displayed_attributes ∧
     (s.with_searchable_attributes sea).pagination = s.pagination ∧
     (s.with_searchable_attributes sea).faceting = s.faceting ∧
     (s.with_searchable_attributes sea).typo_tolerance = s.typo_tolerance) ∧
    ((s.with_displayed_attributes da).displayed_attributes = some da ∧
     (s.with_displayed_attributes da).synonyms = s.synonyms ∧
     (s.with_displayed_attributes da).stop_words = s.stop_words ∧
     (s.with_displayed_attributes da).ranking_rules = s.ranking_rules ∧
     (s.with_displayed_attributes da).filterable_attributes = s.filterable_attributes ∧
     (s.with_displayed_attributes da).sortable_attributes = s.sortable_attributes ∧
     (s.with_displayed_attributes da).distinct_attribute = s.distinct_attribute ∧
     (s.with_displayed_attributes da).searchable_attributes = s.searchable_attributes ∧
     (s.with_displayed_attributes da).pagination = s.pagination ∧
     (s.with_displayed_attributes da).faceting = s.faceting ∧
     (s.with_displayed_attributes da).typo_tolerance = s.typo_tolerance) ∧
    ((s.with_pagination p).pagination = some p ∧
     (s.with_pagination p).synonyms = s.synonyms ∧
     (s.with_pagination p).stop_words = s.stop_words ∧
     (s.with_pagination p).ranking_rules = s.ranking_rules ∧
     (s.with_pagination p).filterable_attributes = s.filterable_attributes ∧
     (s.with_pagination p).sortable_attributes = s.sortable_attributes ∧
     (s.with_pagination p).distinct_attribute = s.distinct_attribute ∧
     (s.with_pagination p).searchable_attributes = s.searchable_attributes ∧
     (s.with_pagination p).displayed_attributes = s.displayed_attributes ∧
     (s.with_pagination p).faceting = s.faceting ∧
     (s.with_pagination p).typo_tolerance = s.typo_tolerance) ∧
    ((s.with_faceting f).faceting = some f ∧
     (s.with_faceting f).synonyms = s.synonyms ∧
     (s.with_faceting f).stop_words = s.stop_words ∧
     (s.with_faceting f).ranking_rules = s.ranking_rules ∧
     (s.with_faceting f).filterable_attributes = s.filterable_attributes ∧
     (s.with_faceting f).sortable_attributes = s.sortable_attributes ∧
     (s.with_faceting f).distinct_attribute = s.distinct_attribute ∧
     (s.with_faceting f).searchable_attributes = s.searchable_attributes ∧
     (s.with_faceting f).displayed_attributes = s.displayed_attributes ∧
     (s.with_faceting f).pagination = s.pagination ∧
     (s.with_faceting f).typo_tolerance = s.typo_tolerance) ∧
    ((s.with_typo_tolerance tt).typo_tolerance = some tt ∧
     (s.with_typo_tolerance tt).synonyms = s.synonyms ∧
     (s.with_typo_tolerance tt).stop_words = s.stop_words ∧
     (s.with_typo_tolerance tt).ranking_rules = s.ranking_rules ∧
     (s.with_typo_tolerance tt).filterable_attributes = s.filterable_attributes ∧
     (s.with_typo_tolerance tt).sortable_attributes = s.sortable_attributes ∧
     (s.with_typo_tolerance tt).distinct_attribute = s.distinct_attribute ∧
     (s.with_typo_tolerance tt).searchable_attributes = s.searchable_attributes ∧
     (s.with_typo_tolerance tt).displayed_attributes = s.displayed_attributes ∧
     (s.with_typo_tolerance tt).pagination = s.pagination ∧
     (s.with_typo_tolerance tt).faceting = s.faceting) := by
  repeat' apply And.intro
  all_goals rfl

/-- Claim C9: two builder calls on distinct `Settings` fields commute, and
two builder calls on the same field resolve last-write-wins. -/
theorem c9_commute_and_last_write_wins (o1 o2 : SettingsOp) (s : Settings) :
    (o1.field ≠ o2.field → o2.apply (o1.apply s) = o1.apply (o2.apply s)) ∧
    (o1.field = o2.field → o2.apply (o1.apply s) = o2.apply s) := by
  cases o1 <;> cases o2 <;>
    refine ⟨fun h => ?_, fun h => ?_⟩ <;>
      first
        | rfl
        | exact absurd rfl h
        | simp [SettingsOp.field] at h

/-- Witness for C9 at concrete inputs: `with_stop_words` commutes with
`with_pagination`, and two `with_stop_words` calls keep only the second. -/
theorem c9_witness :
    ((SettingsOp.pagination ⟨5⟩).apply ((SettingsOp.stopWords ["a"]).apply Settings.new) =
      (SettingsOp.stopWords ["a"]).apply ((SettingsOp.pagination ⟨5⟩).apply Settings.new)) ∧
    ((SettingsOp.stopWords ["b"]).apply ((SettingsOp.stopWords ["a"]).apply Settings.new) =
      (SettingsOp.stopWords ["b"]).apply Settings.new) :=
  ⟨(c9_commute_and_last_write_wins
      (SettingsOp.stopWords ["a"]) (SettingsOp.pagination ⟨5⟩) Settings.new).1 (by decide),
   (c9_commute_and_last_write_wins
      (SettingsOp.stopWords ["a"]) (SettingsOp.stopWords ["b"]) Settings.new).2 rfl⟩

/-- Claim C10: the encoded wire document of any `TypoToleranceSettings`
always contains the `disableOnAttributes`, `disableOnWords` and
`minWordSizeForTypos` keys (those fields carry no omission gate), while
the `enabled` key is present exactly when `enabled` is not `NotSet`. -/
theorem c10_typo_tolerance_always_emits_ungated_keys (t : TypoToleranceSettings) :
    (serializeTypoTolerance t).hasKey "disableOnAttributes" = true ∧
    (serializeTypoTolerance t).hasKey "disableOnWords" = true ∧
    (serializeTypoTolerance t).hasKey "minWordSizeForTypos" = true ∧
    (serializeTypoTolerance t).hasKey "enabled" = !t.enabled.is_not_set := by
  obtain ⟨e, da, dw, m⟩ := t
  cases e <;>
    simp [serializeTypoTolerance, Setting.is_not_set, Json.hasKey]
